import Mathlib

/-!
Verification of the contract-reader core (src/src/routes/index.tsx).

The repository is a single-page app with two components:
the Resolver (the server function readContractOnServer) and the
Revealer (the typewriter loop inside executeRead).  This file embeds
both as pure Lean functions.  External collaborators (the JSON-RPC
provider, the explorer HTTP service, JSON.parse, the ethers address
predicate, the contract call) are modelled as an environment record
whose fields hold the responses the network and libraries would
return; the embedded functions consume that environment exactly in
the order and under the conditions of the source.
-/

set_option autoImplicit false

namespace ContractReader

/-- Error message thrown when the bytecode at the address is the empty
sentinel (source line: `throw new Error` after `code === '0x'`). -/
def notAContractMsg : String := "This address is not a contract or does not exist"

/-- Error message thrown when the explorer response has a non-success
status or a missing result payload. -/
def unverifiedMsg : String :=
  "Contract not verified on Etherscan.\n\nPlease verify your contract first."

/-- Error message thrown when no descriptor passes the candidate filter. -/
def noMessageMsg : String := "No message found in this contract."

/-- Error message set when the submitted address is empty or whitespace. -/
def emptyAddressMsg : String := "Please enter a contract address"

/-- Error message set when the submitted address fails the format check. -/
def invalidAddressMsg : String :=
  "Invalid contract address format, please check and try again"

/-- Fallback error message used when a caught error has an empty message. -/
def fallbackErrorMsg : String := "Failed to read contract"

/-- One parameter descriptor of an ABI entry: only its `type` field is
consulted by the source. -/
structure AbiParam where
  type : String
deriving DecidableEq

/-- One ABI entry as consumed by the source filter: `item.type`,
`item.stateMutability`, `item.inputs.length`, `item.outputs?.length`,
`item.outputs[0].type` and `item.name` are the only fields read.
`outputs` is optional because the source guards it with optional
chaining (`item.outputs?.length`). -/
structure AbiItem where
  name : String
  type : String
  stateMutability : String
  inputs : List AbiParam
  outputs : Option (List AbiParam)
deriving DecidableEq

/-- The filter predicate applied to every ABI entry (source lines 31-37):
kind `function`, mutability `view` or `pure`, zero inputs, and exactly
one output whose type is `string`. -/
def isStringFunction (item : AbiItem) : Bool :=
  item.type == "function" &&
  (item.stateMutability == "view" || item.stateMutability == "pure") &&
  item.inputs.length == 0 &&
  (match item.outputs with
   | some [out] => out.type == "string"
   | _ => false)

/-- The explorer ABI endpoint URL built by the source (line 19); the
`apikey` query parameter is appended only when a key is configured. -/
def etherscanUrl (apiKey address : String) : String :=
  "https://api.etherscan.io/v2/api?chainid=1&module=contract&action=getabi&address="
    ++ address ++ (if apiKey == "" then "" else "&apikey=" ++ apiKey)

/-- Environment of one resolution: the responses the external services
and libraries return for the submitted address.  `getCode` is the
bytecode string the JSON-RPC provider returns; `httpOk` is the
HTTP-level success of the explorer fetch, which the source never
consults (it only reads the decoded JSON body); `status` and `result`
are the fields of that body, with `result = none` for a missing field;
`parse` is the outcome of `JSON.parse` applied to the result payload
string (error carries the thrown message); `call` is the outcome of
invoking the contract function of the given name (error carries the
thrown message). -/
structure Env where
  getCode : String
  httpOk : Bool
  status : String
  result : Option String
  parse : String → Except String (List AbiItem)
  call : String → Except String String

/-- JavaScript falsiness of the `result` field: absent, or the empty
string (the only falsy string). -/
def resultFalsy : Option String → Bool
  | none => true
  | some r => r == ""

deriving instance DecidableEq for Except

/-- Outcome of one server-side resolution: the returned string or the
thrown error message, plus which external calls were performed.
`invoked` holds the name of the contract function called, if any. -/
structure ServerOutcome where
  res : Except String String
  codeQueried : Bool
  explorerQueried : Bool
  invoked : Option String
deriving DecidableEq

/-- Embedding of `readContractOnServer` (source lines 8-47): query the
bytecode; fail on the empty sentinel; fetch the explorer body; fail on
non-success status or falsy payload; `JSON.parse` the payload (a parse
error propagates as the thrown error); filter the entries; fail when no
entry qualifies; call the first qualifying entry and return its string
result unchanged. -/
def readContractOnServer (env : Env) : ServerOutcome :=
  if env.getCode == "0x" then
    ⟨Except.error notAContractMsg, true, false, none⟩
  else if env.status != "1" || resultFalsy env.result then
    ⟨Except.error unverifiedMsg, true, true, none⟩
  else
    match env.result with
    | none => ⟨Except.error unverifiedMsg, true, true, none⟩
    | some r =>
      match env.parse r with
      | Except.error e => ⟨Except.error e, true, true, none⟩
      | Except.ok abi =>
        match abi.filter isStringFunction with
        | [] => ⟨Except.error noMessageMsg, true, true, none⟩
        | func :: _ =>
          match env.call func.name with
          | Except.error e => ⟨Except.error e, true, true, some func.name⟩
          | Except.ok s => ⟨Except.ok s, true, true, some func.name⟩

/-- The signal state the client component owns, restricted to the five
signals `executeRead` touches (source lines 50-56). -/
structure UIState where
  contractResult : String
  isLoading : Bool
  error : String
  isTyping : Bool
  shareUrl : String
deriving DecidableEq

/-- Set only the error signal, leaving every other signal at its prior
value. -/
def setError (s : UIState) (m : String) : UIState :=
  ⟨s.contractResult, s.isLoading, m, s.isTyping, s.shareUrl⟩

/-- Outcome of one `executeRead` call: the final signal state, whether
the server function was invoked, and its outcome when it was. -/
structure ClientOutcome where
  state : UIState
  serverCalled : Bool
  server : Option ServerOutcome

/-- Embedding of `executeRead` (source lines 59-99).  `isAddress`
models the external `ethers.isAddress` predicate (the canonical
Ethereum address format check, an opaque library call); `baseUrl`
models `window.location.origin + window.location.pathname`; `env`
holds the external responses of this resolution.  The two validation
branches return before the server function is invoked; on a thrown
error the message is stored in the error signal (an empty message
falls back to a fixed text); on success the share URL is built, the
typewriter loop appends every split unit of the result and ends with
the typing flag cleared, leaving the full result displayed. -/
def executeRead (isAddress : String → Bool) (baseUrl : String) (env : Env)
    (address : String) (s : UIState) : ClientOutcome :=
  if address.trim == "" then
    ⟨setError s emptyAddressMsg, false, none⟩
  else if !(isAddress address) then
    ⟨setError s invalidAddressMsg, false, none⟩
  else
    let out := readContractOnServer env
    match out.res with
    | Except.error msg =>
      ⟨⟨"", false, (if msg == "" then fallbackErrorMsg else msg), s.isTyping, s.shareUrl⟩,
        true, some out⟩
    | Except.ok result =>
      ⟨⟨result, false, "", false, baseUrl ++ "?address=" ++ address⟩, true, some out⟩

/-!
The Revealer.  The source splits the resolved message with
`result.split('')` (line 84), which cuts a JavaScript string into its
UTF-16 code units, and then appends one unit per 30 ms tick.  A
JavaScript string is a sequence of UTF-16 code units, so the display
states are modelled as `List Nat` of code units; an intermediate state
may hold a lone surrogate, which no Lean `String` could represent.
-/

/-- The UTF-16 encoding of one Unicode scalar value: one code unit in
the Basic Multilingual Plane, a surrogate pair above it. -/
def utf16OfChar (c : Char) : List Nat :=
  if c.toNat < 0x10000 then [c.toNat]
  else [0xD800 + (c.toNat - 0x10000) / 0x400, 0xDC00 + (c.toNat - 0x10000) % 0x400]

/-- The UTF-16 code units of a string, the JavaScript representation of
the resolved message. -/
def utf16OfString (s : String) : List Nat :=
  (s.data.map utf16OfChar).flatten

/-- Embedding of `result.split('')`: one single-unit string per UTF-16
code unit of the message. -/
def jsSplitEmpty (msg : List Nat) : List (List Nat) :=
  msg.map (fun u => [u])

/-- The number of typewriter loop iterations, one per element of the
split (source lines 87-90): each iteration suspends one tick and then
appends one unit to the displayed result. -/
def revealIncrements (msg : List Nat) : Nat :=
  (jsSplitEmpty msg).length

/-- The emitted display states of one uninterrupted reveal: after each
tick the prefix grown by one unit with the typing flag set, then the
full message with the typing flag cleared (source lines 83-92). -/
def revealEmissions (msg : List Nat) : List (List Nat × Bool) :=
  ((List.range msg.length).map (fun i => (msg.take (i + 1), true)))
    ++ [(msg, false)]

/-- The emitted display states with their emission times: the loop
suspends `tick` ms before each append, so the i-th append lands at
`tick * (i+1)` ms; the final flag-clearing emission follows the last
append synchronously, with no further suspension, at `tick *
msg.length` ms. -/
def revealTimed (msg : List Nat) (tick : Nat) : List (Nat × List Nat × Bool) :=
  ((List.range msg.length).map (fun i => (tick * (i + 1), msg.take (i + 1), true)))
    ++ [(tick * msg.length, msg, false)]

/-!
Overlapping reveals.  The source has no cancellation token and no
request generation counter: when a second `executeRead` reaches its
typewriter loop while an earlier loop still has pending timers, both
loops keep appending into the same `contractResult` signal.  The model
below embeds the JavaScript event loop for that situation.  A reveal
is a synchronous reset followed by one timer task per unit; the last
timer task also clears the typing flag synchronously after its append.
All timers use the same 30 ms delay, so pending timers fire in the
order they were registered: after the newer reveal performs its reset,
the older reveal's already pending timer fires first, and from then on
the two loops alternate one task each.
-/

/-- One atomic write to the shared display signals: reset the display
and raise the typing flag (the synchronous prologue of a reveal, source
lines 83-85), append one unit (line 89), or clear the typing flag
(line 92). -/
inductive RevAction where
  | reset
  | emit (u : Nat)
  | finish
deriving DecidableEq

/-- The shared display signals the reveal loops write. -/
structure RevState where
  displayed : List Nat
  typing : Bool
deriving DecidableEq

/-- Apply one atomic write to the shared display signals. -/
def applyAction (s : RevState) : RevAction → RevState
  | RevAction.reset => ⟨[], true⟩
  | RevAction.emit u => ⟨s.displayed ++ [u], s.typing⟩
  | RevAction.finish => ⟨s.displayed, false⟩

/-- Run a sequence of atomic writes over the shared display signals. -/
def runActions (s : RevState) (as : List RevAction) : RevState :=
  as.foldl applyAction s

/-- The timer tasks of a reveal loop over the given remaining units:
one task per unit; the task of the last unit also clears the typing
flag, because the loop exits and `isTyping.value = false` runs in the
same macrotask; with no unit left only the flag-clearing remains. -/
def tasksOf : List Nat → List (List RevAction)
  | [] => [[RevAction.finish]]
  | [u] => [[RevAction.emit u, RevAction.finish]]
  | u :: v :: rest => [RevAction.emit u] :: tasksOf (v :: rest)

/-- Merge two task queues in the order equal-delay timers fire: the
older loop's pending task first, then strict alternation; when one
queue is exhausted the other runs to completion. -/
def mergeTasks : List (List RevAction) → List (List RevAction) → List RevAction
  | [], bs => bs.flatten
  | a :: as, [] => (a :: as).flatten
  | a :: as, b :: bs => a ++ b ++ mergeTasks as bs

/-- The full write sequence when a second reveal of `msgB` starts while
a reveal of `msgA` has completed `k` appends: the first reveal's reset
and its `k` appends, then the second reveal's synchronous reset, then
the interleaved timer tasks of both loops, the older loop's pending
task first. -/
def raceTrace (msgA msgB : List Nat) (k : Nat) : List RevAction :=
  (RevAction.reset :: (msgA.take k).map RevAction.emit)
    ++ (RevAction.reset :: mergeTasks (tasksOf (msgA.drop k)) (tasksOf msgB))

/-- The final shared display state of the overlapped pair of reveals. -/
def raceRun (msgA msgB : List Nat) (k : Nat) : RevState :=
  runActions ⟨[], false⟩ (raceTrace msgA msgB k)

/-- Two successive resolutions against the same environment, i.e. with
the chain state and the external services' responses unchanged between
the calls.  The source function keeps no state across calls: the
provider is constructed afresh inside every call and nothing at module
scope is mutated, so the embedding is a pure function of the
environment. -/
def readTwice (env : Env) : Except String String × Except String String :=
  ((readContractOnServer env).res, (readContractOnServer env).res)

/-- A concrete environment whose bytecode query returns the empty
sentinel. -/
def envEmptyCode : Env :=
  ⟨"0x", true, "1", some "unused", fun _ => Except.error "unused",
    fun _ => Except.error "unused"⟩

/-- A concrete environment whose explorer payload is present but not
parseable as JSON: the parse outcome is the thrown syntax error. -/
def envParseFail : Env :=
  ⟨"0x6001600055", true, "1", some "ok]",
    fun _ => Except.error "Unexpected token o in JSON at position 1",
    fun _ => Except.error "unused"⟩

/-- A concrete environment whose explorer response was delivered with
HTTP-level success but carries the non-success status flag. -/
def envStatusZero : Env :=
  ⟨"0x6001600055", true, "0", some "Contract source code not verified",
    fun _ => Except.error "unused", fun _ => Except.error "unused"⟩

/-- A concrete parsed interface: two non-matching descriptors declared
before the first qualifying one, and a second qualifying one after it. -/
def abiSample : List AbiItem :=
  [⟨"setMessage", "function", "nonpayable", [], some [⟨"string"⟩]⟩,
   ⟨"owner", "function", "view", [], some [⟨"address"⟩]⟩,
   ⟨"getMessage", "function", "view", [], some [⟨"string"⟩]⟩,
   ⟨"getGreeting", "function", "pure", [], some [⟨"string"⟩]⟩]

/-- A concrete environment for a fully successful resolution of
`abiSample`, whose selected function returns the sample message. -/
def envVerified : Env :=
  ⟨"0x6001600055", true, "1", some "[serialized interface]",
    fun _ => Except.ok abiSample,
    fun n => if n == "getMessage" then Except.ok "hello 👋"
             else Except.error "execution reverted"⟩

/-- A concrete prior signal state holding the result of an earlier
successful resolution. -/
def uiSample : UIState :=
  ⟨"earlier message", false, "", false, "https://example.test/?address=0xolder"⟩

/-!
Helper lemmas shared by the claim theorems.
-/

/-- The candidate filter unfolded to a propositional characterization:
kind `function`, mutability `view` or `pure`, an empty input list, and
exactly one output of type `string`. -/
theorem isStringFunction_eq_true (f : AbiItem) :
    isStringFunction f = true ↔
      (f.type = "function" ∧
       (f.stateMutability = "view" ∨ f.stateMutability = "pure") ∧
       f.inputs = [] ∧
       ∃ out, f.outputs = some [out] ∧ out.type = "string") := by
  cases f with
  | mk name ty mu ins outs =>
    unfold isStringFunction
    cases outs with
    | none => simp [List.length_eq_zero]
    | some l =>
      match l with
      | [] => simp [List.length_eq_zero]
      | [o] =>
        simp [List.length_eq_zero]
        tauto
      | o :: o2 :: t => simp [List.length_eq_zero]

/-- When a filter yields a non-empty list, its head is the first
element of the original list satisfying the predicate. -/
theorem find?_of_filter_eq_cons {α : Type} (p : α → Bool) :
    ∀ (l : List α) (f : α) (fs : List α),
      l.filter p = f :: fs → l.find? p = some f := by
  intro l
  induction l with
  | nil => intro f fs h; simp [List.filter] at h
  | cons a l ih =>
    intro f fs h
    by_cases hp : p a = true
    · rw [List.filter_cons_of_pos hp] at h
      rw [List.find?_cons_of_pos _ hp]
      exact congrArg some (List.head_eq_of_cons_eq h).symm ▸ rfl
    · rw [List.filter_cons_of_neg (by simpa using hp)] at h
      rw [List.find?_cons_of_neg _ hp]
      exact ih f fs h

/-- Reduction of the resolution pipeline once the bytecode is
non-empty, the explorer status is the success flag, the payload is a
non-empty string and it parses into an interface: the outcome is the
candidate selection and invocation over the parsed entries. -/
theorem readContract_verified (env : Env) (r : String) (abi : List AbiItem)
    (h0 : env.getCode ≠ "0x") (h1 : env.status = "1") (h2 : env.result = some r)
    (h3 : r ≠ "") (h4 : env.parse r = Except.ok abi) :
    readContractOnServer env =
      (match abi.filter isStringFunction with
       | [] => ⟨Except.error noMessageMsg, true, true, none⟩
       | func :: _ =>
         match env.call func.name with
         | Except.error e => ⟨Except.error e, true, true, some func.name⟩
         | Except.ok s => ⟨Except.ok s, true, true, some func.name⟩) := by
  unfold readContractOnServer
  rw [h2]
  simp [h0, h1, h3, h4, resultFalsy]

/-- Anything inside the flattened left task queue still occurs in the
merged timer schedule. -/
theorem mem_mergeTasks_left (a : RevAction) :
    ∀ (as bs : List (List RevAction)), a ∈ as.flatten → a ∈ mergeTasks as bs := by
  intro as
  induction as with
  | nil => intro bs h; simp at h
  | cons t ts ih =>
    intro bs h
    cases bs with
    | nil => simpa [mergeTasks] using h
    | cons b bs2 =>
      rw [List.flatten_cons] at h
      rcases List.mem_append.mp h with h1 | h2
      · exact List.mem_append.mpr (Or.inl (List.mem_append.mpr (Or.inl h1)))
      · exact List.mem_append.mpr (Or.inr (ih bs2 h2))

/-- Every remaining unit of a reveal loop appears as an append in its
remaining timer tasks. -/
theorem emit_mem_tasksOf (u : Nat) :
    ∀ (units : List Nat), u ∈ units → RevAction.emit u ∈ (tasksOf units).flatten := by
  intro units
  induction units with
  | nil => intro h; simp at h
  | cons v rest ih =>
    intro h
    cases rest with
    | nil =>
      simp at h
      subst h
      simp [tasksOf]
    | cons w rest2 =>
      rcases List.mem_cons.mp h with h1 | h2
      · subst h1
        simp [tasksOf]
      · simp only [tasksOf, List.flatten_cons]
        exact List.mem_append.mpr (Or.inr (ih h2))

/-!
The claim theorems.
-/

/-- Claim C1: the spec requires one increment per display unit, with a
multi-codepoint emoji as a single unit, hence 7 increments for the
message "hello 👋".  The code splits the message into UTF-16 code
units, so it performs 8 increments for that message, and its seventh
intermediate emission ends in the lone high surrogate 55357 (0xD83D),
half of the split emoji glyph. -/
theorem C1_reveal_splits_surrogates :
    utf16OfString "hello 👋" = [104, 101, 108, 108, 111, 32, 55357, 56395] ∧
    revealIncrements (utf16OfString "hello 👋") = 8 ∧
    (8 : Nat) ≠ 7 ∧
    (revealEmissions (utf16OfString "hello 👋")).get? 6 =
      some ([104, 101, 108, 108, 111, 32, 55357], true) := by
  decide

/-- Claim C2: an empty or whitespace-only input, or one failing the
canonical address format check, makes `executeRead` set one of the two
invalid-address error texts and return before the server function is
invoked, so neither the bytecode query, nor the explorer fetch, nor
the contract call is performed. -/
theorem C2_invalid_address_no_network (isAddress : String → Bool)
    (baseUrl : String) (env : Env) (address : String) (s : UIState)
    (h : address.trim = "" ∨ isAddress address = false) :
    ((executeRead isAddress baseUrl env address s).state.error = emptyAddressMsg ∨
     (executeRead isAddress baseUrl env address s).state.error = invalidAddressMsg) ∧
    (executeRead isAddress baseUrl env address s).serverCalled = false ∧
    (executeRead isAddress baseUrl env address s).server = none := by
  rcases h with h | h
  · simp [executeRead, h, setError]
  · by_cases ht : address.trim = ""
    · simp [executeRead, ht, setError]
    · simp [executeRead, ht, h, setError]

/-- Witness for claim C2 at a concrete rejected input. -/
theorem C2_witness :
    ("not an address".trim = "" ∨ (fun (_ : String) => false) "not an address" = false) ∧
    (((executeRead (fun _ => false) "https://example.test/" envVerified
        "not an address" uiSample).state.error = emptyAddressMsg ∨
      (executeRead (fun _ => false) "https://example.test/" envVerified
        "not an address" uiSample).state.error = invalidAddressMsg) ∧
     (executeRead (fun _ => false) "https://example.test/" envVerified
        "not an address" uiSample).serverCalled = false ∧
     (executeRead (fun _ => false) "https://example.test/" envVerified
        "not an address" uiSample).server = none) :=
  ⟨Or.inr rfl,
   C2_invalid_address_no_network (fun _ => false) "https://example.test/" envVerified
     "not an address" uiSample (Or.inr rfl)⟩

/-- Claim C3: when the bytecode query returns the empty sentinel "0x",
the resolution fails with the not-a-contract error and neither the
explorer fetch nor any contract invocation happens. -/
theorem C3_empty_code_not_a_contract (env : Env) (h : env.getCode = "0x") :
    (readContractOnServer env).res = Except.error notAContractMsg ∧
    (readContractOnServer env).explorerQueried = false ∧
    (readContractOnServer env).invoked = none := by
  simp [readContractOnServer, h]

/-- Witness for claim C3 at a concrete environment. -/
theorem C3_witness :
    envEmptyCode.getCode = "0x" ∧
    ((readContractOnServer envEmptyCode).res = Except.error notAContractMsg ∧
     (readContractOnServer envEmptyCode).explorerQueried = false ∧
     (readContractOnServer envEmptyCode).invoked = none) :=
  ⟨rfl, C3_empty_code_not_a_contract envEmptyCode rfl⟩

/-- Claim C4, counterexample: a payload that is present but fails to
parse does not produce the unverified-contract error; the thrown
parse error propagates verbatim instead.  The environment has a
success status and a non-empty payload, so only the parse step fails. -/
theorem C4_counterexample :
    (readContractOnServer envParseFail).res =
      Except.error "Unexpected token o in JSON at position 1" ∧
    (readContractOnServer envParseFail).res ≠ Except.error unverifiedMsg := by
  decide

/-- Claim C4 as amended: past the bytecode check, a status other than
"1" or a missing or empty payload fails with the unverified-contract
error — the HTTP-level flag is never consulted, so this holds
regardless of HTTP-level success — while a payload that fails to parse
surfaces the parser's own thrown message instead; a payload that does
parse (the double-encoded string) proceeds to candidate selection. -/
theorem C4_amended_unverified (env : Env) (h0 : env.getCode ≠ "0x") :
    ((env.status ≠ "1" ∨ resultFalsy env.result = true) →
      (readContractOnServer env).res = Except.error unverifiedMsg ∧
      (readContractOnServer env).invoked = none) ∧
    (∀ r e, env.result = some r → r ≠ "" → env.status = "1" →
      env.parse r = Except.error e →
      (readContractOnServer env).res = Except.error e) := by
  constructor
  · intro h
    rcases h with h | h
    · simp [readContractOnServer, h0, h]
    · cases hr : env.result with
      | none => simp [readContractOnServer, h0, resultFalsy, hr]
      | some r =>
        rw [hr] at h
        simp [resultFalsy] at h
        by_cases hs : env.status = "1" <;>
          simp [readContractOnServer, h0, hs, resultFalsy, hr, h]
  · intro r e hr hre hs hp
    simp [readContractOnServer, h0, hs, resultFalsy, hr, hre, hp]

/-- Witness for claim C4 at a concrete environment delivered with
HTTP-level success but a non-success status flag. -/
theorem C4_witness :
    envStatusZero.getCode ≠ "0x" ∧ envStatusZero.httpOk = true ∧
    envStatusZero.status ≠ "1" ∧
    ((readContractOnServer envStatusZero).res = Except.error unverifiedMsg ∧
     (readContractOnServer envStatusZero).invoked = none) :=
  ⟨by decide, rfl, by decide,
   (C4_amended_unverified envStatusZero (by decide)).1 (Or.inl (by decide))⟩

/-- Claim C5: the filter keeps exactly the descriptors with kind
`function`, mutability `view` or `pure`, zero inputs and one `string`
output; with no qualifying descriptor the resolution fails with the
no-message error and nothing is invoked; otherwise the head of the
filtered list — which is the first qualifying descriptor in
declaration order — is the one invoked, and the outcome is that
invocation's outcome. -/
theorem C5_candidate_selection (env : Env) (r : String) (abi : List AbiItem)
    (h0 : env.getCode ≠ "0x") (h1 : env.status = "1") (h2 : env.result = some r)
    (h3 : r ≠ "") (h4 : env.parse r = Except.ok abi) :
    (∀ f, f ∈ abi.filter isStringFunction ↔
      (f ∈ abi ∧ f.type = "function" ∧
       (f.stateMutability = "view" ∨ f.stateMutability = "pure") ∧
       f.inputs = [] ∧
       ∃ out, f.outputs = some [out] ∧ out.type = "string")) ∧
    (abi.filter isStringFunction = [] →
      (readContractOnServer env).res = Except.error noMessageMsg ∧
      (readContractOnServer env).invoked = none) ∧
    (∀ f fs, abi.filter isStringFunction = f :: fs →
      abi.find? isStringFunction = some f ∧
      (readContractOnServer env).invoked = some f.name ∧
      (readContractOnServer env).res = env.call f.name) := by
  refine ⟨?_, ?_, ?_⟩
  · intro f
    rw [List.mem_filter, isStringFunction_eq_true]
  · intro hf
    rw [readContract_verified env r abi h0 h1 h2 h3 h4, hf]
    exact ⟨rfl, rfl⟩
  · intro f fs hf
    refine ⟨find?_of_filter_eq_cons isStringFunction abi f fs hf, ?_⟩
    rw [readContract_verified env r abi h0 h1 h2 h3 h4, hf]
    cases hc : env.call f.name <;> simp [hc]

/-- Witness for claim C5 at the concrete interface `abiSample`, whose
first qualifying descriptor is declared after two non-matching ones. -/
theorem C5_witness :
    (abiSample.filter isStringFunction =
      ⟨"getMessage", "function", "view", [], some [⟨"string"⟩]⟩ ::
        [⟨"getGreeting", "function", "pure", [], some [⟨"string"⟩]⟩]) ∧
    (abiSample.find? isStringFunction =
      some ⟨"getMessage", "function", "view", [], some [⟨"string"⟩]⟩ ∧
     (readContractOnServer envVerified).invoked = some "getMessage" ∧
     (readContractOnServer envVerified).res = envVerified.call "getMessage") :=
  ⟨by decide,
   (C5_candidate_selection envVerified "[serialized interface]" abiSample
      (by decide) rfl rfl (by decide) rfl).2.2
     ⟨"getMessage", "function", "view", [], some [⟨"string"⟩]⟩
     [⟨"getGreeting", "function", "pure", [], some [⟨"string"⟩]⟩] (by decide)⟩

/-- Claim C6: a successful invocation's string is returned as the
resolution result exactly as received, with no transformation. -/
theorem C6_verbatim_result (env : Env) (r m : String) (abi : List AbiItem)
    (f : AbiItem) (fs : List AbiItem)
    (h0 : env.getCode ≠ "0x") (h1 : env.status = "1") (h2 : env.result = some r)
    (h3 : r ≠ "") (h4 : env.parse r = Except.ok abi)
    (h5 : abi.filter isStringFunction = f :: fs)
    (h6 : env.call f.name = Except.ok m) :
    (readContractOnServer env).res = Except.ok m := by
  rw [readContract_verified env r abi h0 h1 h2 h3 h4, h5]
  simp [h6]

/-- Witness for claim C6: the sample message comes back byte for byte,
emoji included. -/
theorem C6_witness :
    (readContractOnServer envVerified).res = Except.ok "hello 👋" :=
  C6_verbatim_result envVerified "[serialized interface]" "hello 👋" abiSample
    ⟨"getMessage", "function", "view", [], some [⟨"string"⟩]⟩
    [⟨"getGreeting", "function", "pure", [], some [⟨"string"⟩]⟩]
    (by decide) rfl rfl (by decide) rfl (by decide) (by decide)

/-- Claim C7, counterexample: with the earlier reveal of [97, 98] one
append in and a newer reveal of [120, 121] starting, the earlier
loop's remaining append of unit 98 still fires after the newer
reveal's reset — it is in the merged timer schedule — and the shared
display ends as [98, 120, 121], not the newer message [120, 121]. -/
theorem C7_counterexample :
    raceRun [97, 98] [120, 121] 1 = ⟨[98, 120, 121], false⟩ ∧
    [98, 120, 121] ≠ ([120, 121] : List Nat) ∧
    RevAction.emit 98 ∈
      mergeTasks (tasksOf (List.drop 1 [97, 98])) (tasksOf [120, 121]) := by
  decide

/-- Claim C7 as amended: the source has no cancellation and no request
generation tagging, so starting a newer reveal does not stop the
earlier one: every remaining unit of the earlier reveal is still
emitted in the merged timer schedule after the newer reveal's reset,
i.e. stale emissions are applied to the newer request's display state
rather than discarded. -/
theorem C7_stale_emissions_applied (msgA msgB : List Nat) (k u : Nat)
    (h : u ∈ msgA.drop k) :
    RevAction.emit u ∈ mergeTasks (tasksOf (msgA.drop k)) (tasksOf msgB) ∧
    raceTrace msgA msgB k =
      (RevAction.reset :: (msgA.take k).map RevAction.emit)
        ++ (RevAction.reset ::
              mergeTasks (tasksOf (msgA.drop k)) (tasksOf msgB)) :=
  ⟨mem_mergeTasks_left (RevAction.emit u) (tasksOf (msgA.drop k)) (tasksOf msgB)
     (emit_mem_tasksOf u (msgA.drop k) h), rfl⟩

/-- Witness for claim C7 as amended, at the concrete overlapped pair of
reveals of the counterexample. -/
theorem C7_witness :
    (98 ∈ List.drop 1 [97, 98]) ∧
    RevAction.emit 98 ∈
      mergeTasks (tasksOf (List.drop 1 [97, 98])) (tasksOf [120, 121]) :=
  ⟨by decide, (C7_stale_emissions_applied [97, 98] [120, 121] 1 98 (by decide)).1⟩

/-- Claim C8, counterexample: the reveal of "ok" at a 30 ms tick emits
the three claimed states, but the second and the third emission both
happen at 60 ms — the final flag-clearing emission follows the last
append with no suspension — so the claimed 30 ms minimum gap between
successive emissions fails for the last pair. -/
theorem C8_counterexample :
    revealTimed (utf16OfString "ok") 30 =
      [(30, [111], true), (60, [111, 107], true), (60, [111, 107], false)] ∧
    ¬ (60 + 30 ≤ 60) := by
  decide

/-- Claim C8 as amended: reveal of "ok" at a 30 ms tick emits exactly
the three states "o" and "ok" with the typing flag set and "ok" with
it cleared; one tick suspension precedes each append, so the appends
land at 30 ms and 60 ms, and the final state is emitted immediately
after the last append, also at 60 ms, with no further suspension. -/
theorem C8_amended_timing :
    revealEmissions (utf16OfString "ok") =
      [([111], true), ([111, 107], true), ([111, 107], false)] ∧
    revealTimed (utf16OfString "ok") 30 =
      [(30, [111], true), (60, [111, 107], true), (60, [111, 107], false)] := by
  decide

/-- Claim C9: resolving twice against an unchanged environment yields
the same outcome both times; in particular a successful message is
identical on both calls.  The source retains no state between calls,
which the embedding reflects by being a pure function of the
environment. -/
theorem C9_repeat_resolution (env : Env) (m : String)
    (h : (readContractOnServer env).res = Except.ok m) :
    (readTwice env).1 = Except.ok m ∧ (readTwice env).2 = Except.ok m ∧
    (readTwice env).1 = (readTwice env).2 :=
  ⟨h, h, rfl⟩

/-- Witness for claim C9 at the concrete successful environment. -/
theorem C9_witness :
    (readTwice envVerified).1 = Except.ok "hello 👋" ∧
    (readTwice envVerified).2 = Except.ok "hello 👋" ∧
    (readTwice envVerified).1 = (readTwice envVerified).2 :=
  C9_repeat_resolution envVerified "hello 👋" (by decide)

/-- Claim C10: a rejected input updates only the error signal: the
displayed result, the share URL, the loading flag and the typing flag
keep their prior values, and the server function is not invoked, so an
earlier revealed message stays displayed. -/
theorem C10_frame_invalid_input (isAddress : String → Bool)
    (baseUrl : String) (env : Env) (address : String) (s : UIState)
    (h : address.trim = "" ∨ isAddress address = false) :
    (executeRead isAddress baseUrl env address s).state.contractResult
        = s.contractResult ∧
    (executeRead isAddress baseUrl env address s).state.shareUrl = s.shareUrl ∧
    (executeRead isAddress baseUrl env address s).state.isLoading = s.isLoading ∧
    (executeRead isAddress baseUrl env address s).state.isTyping = s.isTyping ∧
    (executeRead isAddress baseUrl env address s).serverCalled = false := by
  rcases h with h | h
  · simp [executeRead, h, setError]
  · by_cases ht : address.trim = ""
    · simp [executeRead, ht, setError]
    · simp [executeRead, ht, h, setError]

/-- Witness for claim C10: after rejecting a concrete invalid input the
prior signal state, holding an earlier revealed message, is intact. -/
theorem C10_witness :
    ("0xZZ".trim = "" ∨ (fun (_ : String) => false) "0xZZ" = false) ∧
    ((executeRead (fun _ => false) "https://example.test/" envVerified
        "0xZZ" uiSample).state.contractResult = uiSample.contractResult ∧
     (executeRead (fun _ => false) "https://example.test/" envVerified
        "0xZZ" uiSample).state.shareUrl = uiSample.shareUrl ∧
     (executeRead (fun _ => false) "https://example.test/" envVerified
        "0xZZ" uiSample).state.isLoading = uiSample.isLoading ∧
     (executeRead (fun _ => false) "https://example.test/" envVerified
        "0xZZ" uiSample).state.isTyping = uiSample.isTyping ∧
     (executeRead (fun _ => false) "https://example.test/" envVerified
        "0xZZ" uiSample).serverCalled = false) :=
  ⟨Or.inr rfl,
   C10_frame_invalid_input (fun _ => false) "https://example.test/" envVerified
     "0xZZ" uiSample (Or.inr rfl)⟩

end ContractReader
